import Mathlib

/-!
Verification of the ballot submission, confirmation, postponement, checkin and
status-histogram logic of tabbycat's results views (src/tabbycat/results/views.py),
shallowly embedded in Lean.
-/

namespace Tabbycat

/-- Result status of a debate, from draw.models.Debate
(STATUS_NONE, STATUS_POSTPONED, STATUS_DRAFT, STATUS_CONFIRMED). -/
inductive ResultStatus where
  | STATUS_NONE
  | STATUS_POSTPONED
  | STATUS_DRAFT
  | STATUS_CONFIRMED
deriving DecidableEq, Repr

open ResultStatus

/-- The status update performed by toggle_postponed (views.py lines 41-49):
if the debate's result_status is STATUS_POSTPONED it becomes STATUS_NONE,
otherwise it becomes STATUS_POSTPONED, unconditionally.  The view then saves
the debate; it raises no error and reads nothing else. -/
def toggle_postponed (s : ResultStatus) : ResultStatus :=
  if s = STATUS_POSTPONED then STATUS_NONE else STATUS_POSTPONED

/-- One BallotSubmission record (results.models.BallotSubmission), with the
fields the claims need: per-debate version, optional submitter identity,
confirmed and discarded flags, optional confirmer identity, and the opaque
scoring content (comparable for equality). -/
structure Submission where
  version : Nat
  submitter : Option Nat
  confirmed : Bool
  discarded : Bool
  confirmer : Option Nat
  content : Nat
deriving DecidableEq, Repr

/-- Number of non-discarded submissions of a debate with confirmed = true. -/
def confirmedCount (subs : List Submission) : Nat :=
  (subs.filter (fun s => s.confirmed && !s.discarded)).length

/-- Whether some non-discarded submission of the debate is confirmed. -/
def hasConfirmedSub (subs : List Submission) : Bool :=
  subs.any (fun s => s.confirmed && !s.discarded)

/-- A debate's state as this core sees it: its stored result_status, its
physical-checkin flag and its submissions. -/
structure DebateState where
  result_status : ResultStatus
  ballot_in : Bool
  subs : List Submission
deriving DecidableEq, Repr

/-- toggle_postponed lifted to the whole debate record: the view mutates only
result_status (views.py lines 42-48). -/
def toggle_postponedDebate (d : DebateState) : DebateState :=
  { d with result_status := toggle_postponed d.result_status }

/-- Next version for a debate: one more than the maximum version already
allocated to that debate (discarded submissions included). -/
def nextVersion (subs : List Submission) : Nat :=
  (subs.map Submission.version).foldr max 0 + 1

/-- Modelled from the spec: createSubmission (spec section 4.1).  The code that
persists a new BallotSubmission (BallotSetForm.save, results/forms.py) is not
under src/; views.py only constructs the unsaved record (new_ballotset lines
301-303).  Per the spec, creation allocates the next version atomically and
starts with confirmed = false, discarded = false. -/
def createSubmission (subs : List Submission) (submitter : Option Nat) (content : Nat) :
    List Submission :=
  subs ++ [{ version := nextVersion subs, submitter := submitter, confirmed := false,
             discarded := false, confirmer := none, content := content }]

/-- Modelled from the spec: confirmSubmission (spec section 4.1).  The
confirmation write itself (BallotSetForm.save / results.result.BallotSet) is
not under src/; views.py lines 210-213 only set the confirmer afterwards.  Per
the spec, confirming a non-discarded submission atomically unconfirms every
other submission of the debate (clearing its confirmer) and confirms the
target; a discarded or missing target leaves the store unchanged. -/
def confirmSubmission (subs : List Submission) (v : Nat) (cid : Nat) : List Submission :=
  match subs.find? (fun s => s.version == v) with
  | none => subs
  | some s =>
    if s.discarded then subs
    else subs.map (fun t =>
      if t.version == v then { t with confirmed := true, confirmer := some cid }
      else { t with confirmed := false, confirmer := none })

/-- Modelled from the spec: discardSubmission (spec section 4.1).  The discard
write (BallotSetForm.save) is not under src/.  Discarding tombstones the
submission and clears its confirmed flag; already-discarded targets make it a
no-op. -/
def discardSubmission (subs : List Submission) (v : Nat) : List Submission :=
  subs.map (fun t =>
    if t.version == v then { t with discarded := true, confirmed := false, confirmer := none }
    else t)

/-- Modelled from the spec: editing a submission replaces its scoring content
only (edit_ballotset's plain-edit branch, views.py lines 216-218; the content
write itself is in BallotSetForm.save, not under src/). -/
def editSubmission (subs : List Submission) (v : Nat) (content : Nat) : List Submission :=
  subs.map (fun t => if t.version == v then { t with content := content } else t)

/-- One operation of the confirmation state machine on a single debate's
submission store. -/
inductive BallotOp where
  | create (submitter : Option Nat) (content : Nat)
  | confirm (version : Nat) (confirmer : Nat)
  | discard (version : Nat)
  | edit (version : Nat) (content : Nat)
deriving DecidableEq, Repr

/-- Apply one operation to a debate's submission list. -/
def applyOp (subs : List Submission) : BallotOp → List Submission
  | .create submitter content => createSubmission subs submitter content
  | .confirm v cid => confirmSubmission subs v cid
  | .discard v => discardSubmission subs v
  | .edit v content => editSubmission subs v content

/-- Apply a sequence of operations starting from the empty store. -/
def applyOps (ops : List BallotOp) : List Submission :=
  ops.foldl applyOp []

/-- Error raised when a confirmation is rejected. -/
inductive ConfirmError where
  | selfConfirmation
deriving DecidableEq, Repr

/-- Modelled from the spec: the self-confirmation guard of confirmSubmission
(spec sections 4.1 and 7).  The enforcement inside BallotSetForm is not under
src/; the guard's predicate is mirrored verbatim by the disable_confirm flag
computed at views.py line 232 (confirmer is the submitter, the tournament's
allow-self-confirm preference is off, and the actor is not a superuser).  When
the guard fires the store is returned unchanged together with the error;
otherwise the confirmation of spec section 4.1 is performed. -/
def confirmSubmissionChecked (subs : List Submission) (v : Nat) (cid : Nat)
    (allowSelfConfirm elevated : Bool) : List Submission × Option ConfirmError :=
  match subs.find? (fun s => s.version == v) with
  | none => (subs, none)
  | some s =>
    if s.submitter == some cid && !allowSelfConfirm && !elevated then
      (subs, some ConfirmError.selfConfirmation)
    else
      (confirmSubmission subs v cid, none)

/-- Outcome of one call to a ballot-set creation view. -/
inductive NewBallotOutcome where
  | created
  | missingChair
  | notReleased
  | noAssignment
  | formShown
deriving DecidableEq, Repr

/-- The control flow of new_ballotset (views.py lines 296-335): if the
debate's adjudicator panel has no chair the view errors out and redirects
before any form handling (lines 305-308), so no submission is saved;
otherwise a valid POST saves the ballot set (lines 310-317) and anything else
just renders the entry form. -/
def new_ballotset (has_chair : Bool) (post_valid : Bool) : NewBallotOutcome :=
  if !has_chair then NewBallotOutcome.missingChair
  else if post_valid then NewBallotOutcome.created
  else NewBallotOutcome.formShown

/-- The control flow of public_new_ballotset (views.py lines 254-293): it
rejects when the draw is unreleased or motions are unreleased (lines 257-260),
rejects when the adjudicator has no debate this round (lines 262-267), and
otherwise a valid POST saves the public ballot set (lines 274-281).  The
has_chair argument records the chair-existence of the debate's panel: the
function never consults it, because this view performs no chair check. -/
def public_new_ballotset (has_chair : Bool) (draw_released : Bool) (motions_released : Bool)
    (has_assignment : Bool) (post_valid : Bool) : NewBallotOutcome :=
  if !draw_released || !motions_released then NewBallotOutcome.notReleased
  else if !has_assignment then NewBallotOutcome.noAssignment
  else if post_valid then NewBallotOutcome.created
  else NewBallotOutcome.formShown

/-- One venue (venues.models.Venue): primary key and display name. -/
structure Venue where
  id : Nat
  name : String
deriving DecidableEq, Repr

/-- One debate as the checkin code sees it: primary key, round, optional venue
reference (by venue id), the physical-checkin flag and the two team short
names. -/
structure DebateRec where
  id : Nat
  round : Nat
  venue : Option Nat
  ballot_in : Bool
  aff : String
  neg : String
deriving DecidableEq, Repr

/-- The slice of the database the checkin views read and write. -/
structure Store where
  venues : List Venue
  debates : List DebateRec
deriving DecidableEq, Repr

/-- Venues whose name matches the query case-insensitively:
Venue.objects.get(name__iexact=v) filters on this set (views.py line 419). -/
def venuesMatching (st : Store) (v : String) : List Venue :=
  st.venues.filter (fun w => w.name.toLower == v.toLower)

/-- Debates of the given round at the given venue:
Debate.objects.get(round=round, venue=venue) filters on this set
(views.py line 424). -/
def debatesAt (st : Store) (r : Nat) (venueId : Nat) : List DebateRec :=
  st.debates.filter (fun d => d.round == r && d.venue == some venueId)

/-- The user-facing checkin failures raised as DebateBallotCheckinError
(views.py lines 418-429). -/
inductive CheckinError where
  | venueNotFound
  | noDebateAtVenue
  | alreadyCheckedIn
deriving DecidableEq, Repr

/-- Result of get_debate_from_ballot_checkin_request.  uncaught models the
Django MultipleObjectsReturned exception that .get raises when several rows
match: the views catch only DoesNotExist and DebateBallotCheckinError, so it
would propagate as a crash. -/
inductive CheckinLookup where
  | err (e : CheckinError)
  | uncaught
  | ok (d : DebateRec)
deriving DecidableEq, Repr

/-- get_debate_from_ballot_checkin_request (views.py lines 413-431): resolve
the venue name case-insensitively (VenueNotFound if none matches), resolve the
round's debate at that venue (NoDebateAtVenue if none), and reject with
AlreadyCheckedIn if the debate's ballot_in is already set; otherwise return
the debate. -/
def get_debate_from_ballot_checkin_request (st : Store) (r : Nat) (v : String) :
    CheckinLookup :=
  match venuesMatching st v with
  | [] => CheckinLookup.err CheckinError.venueNotFound
  | [venue] =>
    match debatesAt st r venue.id with
    | [] => CheckinLookup.err CheckinError.noDebateAtVenue
    | [debate] =>
      if debate.ballot_in then CheckinLookup.err CheckinError.alreadyCheckedIn
      else CheckinLookup.ok debate
    | _ :: _ :: _ => CheckinLookup.uncaught
  | _ :: _ :: _ => CheckinLookup.uncaught

/-- The write performed by post_ballot_checkin on success (views.py lines
476-477): set ballot_in on the resolved debate and save it; every other row
is untouched. -/
def setBallotIn (st : Store) (debateId : Nat) : Store :=
  { st with debates := st.debates.map (fun d =>
      if d.id == debateId then { d with ballot_in := true } else d) }

/-- ballot_checkin_number_left (views.py lines 434-436): number of debates of
the round with ballot_in = false. -/
def ballot_checkin_number_left (st : Store) (r : Nat) : Nat :=
  (st.debates.filter (fun d => d.round == r && !d.ballot_in)).length

/-- The summary returned by a successful checkin (views.py lines 483-489). -/
structure CheckinSuccess where
  venueId : Option Nat
  debate_description : String
  ballots_left : Nat
deriving DecidableEq, Repr

/-- Overall outcome of post_ballot_checkin. -/
inductive CheckinOutcome where
  | failure (e : CheckinError)
  | uncaught
  | success (s : CheckinSuccess)
deriving DecidableEq, Repr

/-- post_ballot_checkin (views.py lines 466-491): resolve the debate via
get_debate_from_ballot_checkin_request; on a checkin error answer with the
message and change nothing; on success set ballot_in = true, save, and return
the venue, the matchup description and the remaining-uncheckedin count
computed on the updated store. -/
def post_ballot_checkin (st : Store) (r : Nat) (v : String) : Store × CheckinOutcome :=
  match get_debate_from_ballot_checkin_request st r v with
  | CheckinLookup.err e => (st, CheckinOutcome.failure e)
  | CheckinLookup.uncaught => (st, CheckinOutcome.uncaught)
  | CheckinLookup.ok debate =>
    let st2 := setBallotIn st debate.id
    (st2, CheckinOutcome.success
      { venueId := debate.venue,
        debate_description := debate.aff ++ " vs " ++ debate.neg,
        ballots_left := ballot_checkin_number_left st2 r })

/-- One ballot submission as ballots_status sees it: its elapsed
minutes-ago (the value of the minutes_ago helper, views.py lines 345-348,
days * 1440 + seconds / 60, an exact rational) and the current result_status
of its debate.  ballots_status lists submissions ordered by timestamp
ascending (line 350), so minutesAgo runs weakly descending. -/
structure Ballot where
  minutesAgo : ℚ
  status : ResultStatus
deriving DecidableEq, Repr

/-- One element of the stats list built by ballots_status:
stat = [int(time_period), debates, 0, 0] then incremented (lines 362-370). -/
structure HistSample where
  minutesAgo : ℤ
  notYetEntered : ℤ
  draftCount : ℤ
  confirmedCount : ℤ
deriving DecidableEq, Repr

/-- Python's int() applied to a rational: truncation toward zero. -/
def truncQ (q : ℚ) : ℤ :=
  if 0 ≤ q.num then Int.ofNat (q.num.toNat / q.den)
  else -Int.ofNat ((-q.num).toNat / q.den)

/-- One iteration of the inner loop of ballots_status (views.py lines
363-370): a ballot whose minutes-ago is at least the checkpoint's time_period
moves one unit from the not-yet-entered slot into draft if its debate is
currently STATUS_DRAFT, or into confirmed if STATUS_CONFIRMED; other statuses
leave the stat alone. -/
def histStep (time_period : ℚ) (stat : HistSample) (b : Ballot) : HistSample :=
  if time_period ≤ b.minutesAgo then
    if b.status = STATUS_DRAFT then
      { stat with draftCount := stat.draftCount + 1,
                  notYetEntered := stat.notYetEntered - 1 }
    else if b.status = STATUS_CONFIRMED then
      { stat with confirmedCount := stat.confirmedCount + 1,
                  notYetEntered := stat.notYetEntered - 1 }
    else stat
  else stat

/-- The stat built by ballots_status for one checkpoint (views.py lines
362-371): start from [int(time_period), debates, 0, 0] and fold histStep over
the round's ballots. -/
def sampleStat (ballots : List Ballot) (debates : ℤ) (time_period : ℚ) : HistSample :=
  ballots.foldl (histStep time_period)
    { minutesAgo := truncQ time_period, notYetEntered := debates,
      draftCount := 0, confirmedCount := 0 }

/-- ballots_status (views.py lines 340-373), with the interval count as a
parameter (the source fixes intervals = 20 at line 343).  With no ballots the
view answers the empty list (lines 352-353); otherwise start_entry and
end_entry are the minutes-ago of the first and last ballot, chunks is their
difference divided by the interval count (line 357, exact rational division in
the model, float division in the source), and one sample is produced for each
i in range(intervals + 1) at checkpoint i * chunks + start_entry. -/
def ballots_status (intervals : ℕ) (ballots : List Ballot) (debates : ℤ) :
    List HistSample :=
  match ballots with
  | [] => []
  | b :: rest =>
    let start_entry := b.minutesAgo
    let end_entry := (rest.getLastD b).minutesAgo
    let chunks := (end_entry - start_entry) / (intervals : ℚ)
    (List.range (intervals + 1)).map (fun (i : ℕ) =>
      sampleStat (b :: rest) debates ((i : ℚ) * chunks + start_entry))

/-- The per-debate versions present in a submission store are pairwise
distinct (spec section 3: version is unique per debate, never reused). -/
def VersionsNodup (subs : List Submission) : Prop :=
  (subs.map Submission.version).Nodup

/-- The inductive invariant of one debate's submission store: versions are
unique and at most one non-discarded submission is confirmed. -/
def StoreInv (subs : List Submission) : Prop :=
  VersionsNodup subs ∧ confirmedCount subs ≤ 1

/-- A debate whose single submission is confirmed, its stored status being
STATUS_CONFIRMED. -/
def demoConfirmedDebate : DebateState :=
  { result_status := STATUS_CONFIRMED, ballot_in := false,
    subs := [{ version := 1, submitter := some 7, confirmed := true,
               discarded := false, confirmer := some 8, content := 42 }] }

/-- A debate with one unconfirmed draft submission, its stored status being
STATUS_DRAFT; it has no confirmed submission. -/
def demoDraftDebate : DebateState :=
  { result_status := STATUS_DRAFT, ballot_in := false,
    subs := [{ version := 1, submitter := some 7, confirmed := false,
               discarded := false, confirmer := none, content := 42 }] }

/-- A store with one venue named Room 1 and one not-yet-checked-in debate at
that venue in round 5. -/
def demoStore : Store :=
  { venues := [{ id := 1, name := "Room 1" }],
    debates := [{ id := 1, round := 5, venue := some 1, ballot_in := false,
                  aff := "A", neg := "B" }] }

/-- The claimed histogram scenario: three confirmed submissions timestamped
30, 20 and 10 minutes ago (ordered by timestamp ascending), in a round of 10
debates. -/
def demoBallots : List Ballot :=
  [{ minutesAgo := 30, status := STATUS_CONFIRMED },
   { minutesAgo := 20, status := STATUS_CONFIRMED },
   { minutesAgo := 10, status := STATUS_CONFIRMED }]

/-- A single submission, so that the earliest and latest minutes-ago
coincide. -/
def demoFlatBallots : List Ballot :=
  [{ minutesAgo := 30, status := STATUS_CONFIRMED }]

/-- Two draft submissions on the same debate of a one-debate round: both
qualify at the collapsed checkpoint, driving notYetEntered below zero. -/
def demoDoubleDraft : List Ballot :=
  [{ minutesAgo := 5, status := STATUS_DRAFT },
   { minutesAgo := 5, status := STATUS_DRAFT }]

/-- One unconfirmed submission entered by actor 7, for exercising the
self-confirmation guard. -/
def demoSubs : List Submission :=
  [{ version := 1, submitter := some 7, confirmed := false,
     discarded := false, confirmer := none, content := 42 }]

/-- C2 counterexample: the debate demoConfirmedDebate has a confirmed
submission, yet toggle_postponed does not leave its result status unchanged
(and a fortiori does not fail): it moves it from STATUS_CONFIRMED to
STATUS_POSTPONED.  No InvalidStateError exists in the code; the view toggles
unconditionally. -/
theorem claim2_counterexample :
    hasConfirmedSub demoConfirmedDebate.subs = true ∧
    (toggle_postponedDebate demoConfirmedDebate).result_status = STATUS_POSTPONED ∧
    (toggle_postponedDebate demoConfirmedDebate).result_status ≠
      demoConfirmedDebate.result_status := by
  refine ⟨by decide, by decide, by decide⟩

/-- C2 amended: toggle_postponed never fails; even on a debate that has a
confirmed submission it toggles unconditionally, sending any non-postponed
status (including STATUS_CONFIRMED) to STATUS_POSTPONED and STATUS_POSTPONED
to STATUS_NONE, while touching no other debate state. -/
theorem claim2_toggle_unconditional (d : DebateState)
    (h : hasConfirmedSub d.subs = true) :
    (d.result_status ≠ STATUS_POSTPONED →
       (toggle_postponedDebate d).result_status = STATUS_POSTPONED) ∧
    (d.result_status = STATUS_POSTPONED →
       (toggle_postponedDebate d).result_status = STATUS_NONE) ∧
    (toggle_postponedDebate d).ballot_in = d.ballot_in ∧
    (toggle_postponedDebate d).subs = d.subs := by
  refine ⟨?_, ?_, rfl, rfl⟩ <;>
    · intro hs
      simp [toggle_postponedDebate, toggle_postponed, hs]

/-- C2 witness: the amended statement applied to the concrete confirmed
debate. -/
theorem claim2_witness :
    hasConfirmedSub demoConfirmedDebate.subs = true ∧
    (toggle_postponedDebate demoConfirmedDebate).result_status = STATUS_POSTPONED :=
  ⟨by decide,
   (claim2_toggle_unconditional demoConfirmedDebate (by decide)).1 (by decide)⟩

/-- C3 counterexample: demoDraftDebate has no confirmed submission, yet two
toggles do not return its result status to the original value: STATUS_DRAFT
goes to STATUS_POSTPONED and then to STATUS_NONE. -/
theorem claim3_counterexample :
    hasConfirmedSub demoDraftDebate.subs = false ∧
    (toggle_postponedDebate (toggle_postponedDebate demoDraftDebate)).result_status =
      STATUS_NONE ∧
    (toggle_postponedDebate (toggle_postponedDebate demoDraftDebate)).result_status ≠
      demoDraftDebate.result_status := by
  refine ⟨by decide, by decide, by decide⟩

/-- C3 amended: for a debate whose result status is STATUS_NONE or
STATUS_POSTPONED, toggling twice returns the status to its original value,
and a single toggle stays within the pair, so the toggle flips only between
NO_RESULT and POSTPONED.  A debate in STATUS_DRAFT — which also has no
confirmed submission — instead ends at STATUS_NONE after two toggles. -/
theorem claim3_toggle_roundtrip (s : ResultStatus)
    (h : s = STATUS_NONE ∨ s = STATUS_POSTPONED) :
    toggle_postponed (toggle_postponed s) = s ∧
    (toggle_postponed s = STATUS_NONE ∨ toggle_postponed s = STATUS_POSTPONED) := by
  rcases h with h | h <;> subst h <;> exact ⟨by decide, by decide⟩

/-- C3 witness: the round trip at the concrete status STATUS_NONE. -/
theorem claim3_witness :
    toggle_postponed (toggle_postponed STATUS_NONE) = STATUS_NONE :=
  (claim3_toggle_roundtrip STATUS_NONE (Or.inl rfl)).1

/-- C7 counterexample: a chairless debate reaches submission creation through
the public path: public_new_ballotset never consults chair existence, so with
the draw and motions released, an assignment present and a valid POST it
creates the ballot set instead of failing with a missing-chair error. -/
theorem claim7_counterexample :
    public_new_ballotset false true true true true = NewBallotOutcome.created ∧
    NewBallotOutcome.created ≠ NewBallotOutcome.missingChair := by
  exact ⟨by decide, by decide⟩

/-- C7 amended: the chair-existence precondition is enforced only on the
staff creation path: new_ballotset on a chairless debate always fails with
the missing-chair error (so no submission is created), while
public_new_ballotset behaves identically whether or not the debate's panel
has a chair. -/
theorem claim7_chair_check_staff_only :
    (∀ post_valid, new_ballotset false post_valid = NewBallotOutcome.missingChair) ∧
    (∀ has_chair draw_released motions_released has_assignment post_valid,
       public_new_ballotset has_chair draw_released motions_released
           has_assignment post_valid =
         public_new_ballotset true draw_released motions_released
           has_assignment post_valid) := by
  exact ⟨by decide, by decide⟩

theorem confirmedCount_eq_countP (subs : List Submission) :
    confirmedCount subs = subs.countP (fun s => s.confirmed && !s.discarded) :=
  (List.countP_eq_length_filter _ _).symm

theorem le_foldr_max (l : List Nat) (x : Nat) (hx : x ∈ l) : x ≤ l.foldr max 0 := by
  induction l with
  | nil => cases hx
  | cons a l ih =>
    rcases List.mem_cons.mp hx with h | h
    · subst h; exact le_max_left _ _
    · exact le_trans (ih h) (le_max_right _ _)

theorem storeInv_create (subs : List Submission) (submitter : Option Nat) (content : Nat)
    (h : StoreInv subs) : StoreInv (createSubmission subs submitter content) := by
  obtain ⟨hnd, hcc⟩ := h
  constructor
  · have hfresh : nextVersion subs ∉ subs.map Submission.version := by
      intro hmem
      have := le_foldr_max _ _ hmem
      simp only [nextVersion] at this
      omega
    simp only [VersionsNodup, createSubmission, List.map_append, List.nodup_append,
      List.map_cons, List.map_nil]
    refine ⟨hnd, List.nodup_singleton _, ?_⟩
    intro x hx hx1
    rcases List.mem_singleton.mp hx1 with rfl
    exact hfresh hx
  · simpa [confirmedCount, createSubmission, List.filter_append] using hcc

theorem countP_version_le_one (subs : List Submission) (v : Nat)
    (hnd : VersionsNodup subs) : subs.countP (fun t => t.version == v) ≤ 1 := by
  have h1 : subs.countP (fun t => t.version == v) =
      (subs.map Submission.version).countP (fun x => x == v) := by
    rw [List.countP_map]
    rfl
  rw [h1, ← List.count_eq_countP]
  exact List.nodup_iff_count_le_one.mp hnd v

theorem storeInv_confirm (subs : List Submission) (v cid : Nat)
    (h : StoreInv subs) : StoreInv (confirmSubmission subs v cid) := by
  obtain ⟨hnd, hcc⟩ := h
  unfold confirmSubmission
  cases hf : subs.find? (fun s => s.version == v) with
  | none => exact ⟨hnd, hcc⟩
  | some s =>
    dsimp only
    by_cases hd : s.discarded = true
    · rw [if_pos hd]
      exact ⟨hnd, hcc⟩
    · rw [if_neg hd]
      constructor
      · unfold VersionsNodup
        have hmv : (subs.map (fun t =>
            if t.version == v then { t with confirmed := true, confirmer := some cid }
            else { t with confirmed := false, confirmer := none })).map Submission.version =
            subs.map Submission.version := by
          rw [List.map_map]
          apply List.map_congr_left
          intro t _
          simp only [Function.comp_apply]
          split <;> rfl
        rw [hmv]
        exact hnd
      · rw [confirmedCount_eq_countP, List.countP_map]
        calc subs.countP ((fun s => s.confirmed && !s.discarded) ∘ (fun t =>
              if t.version == v then { t with confirmed := true, confirmer := some cid }
              else { t with confirmed := false, confirmer := none }))
            ≤ subs.countP (fun t => t.version == v) := by
              apply List.countP_mono_left
              intro t _ hpt
              by_cases ht : t.version == v
              · exact ht
              · simp [Function.comp, ht] at hpt
          _ ≤ 1 := countP_version_le_one subs v hnd

theorem storeInv_discard (subs : List Submission) (v : Nat)
    (h : StoreInv subs) : StoreInv (discardSubmission subs v) := by
  obtain ⟨hnd, hcc⟩ := h
  constructor
  · unfold VersionsNodup discardSubmission
    have hmv : (subs.map (fun t =>
        if t.version == v then { t with discarded := true, confirmed := false, confirmer := none }
        else t)).map Submission.version = subs.map Submission.version := by
      rw [List.map_map]
      apply List.map_congr_left
      intro t _
      simp only [Function.comp_apply]
      split <;> rfl
    rw [hmv]
    exact hnd
  · rw [confirmedCount_eq_countP] at hcc ⊢
    unfold discardSubmission
    rw [List.countP_map]
    calc subs.countP ((fun s => s.confirmed && !s.discarded) ∘ (fun t =>
          if t.version == v then { t with discarded := true, confirmed := false, confirmer := none }
          else t))
        ≤ subs.countP (fun s => s.confirmed && !s.discarded) := by
          apply List.countP_mono_left
          intro t _ hpt
          by_cases ht : t.version == v
          · simp [Function.comp, ht] at hpt
          · simpa [Function.comp, ht] using hpt
      _ ≤ 1 := hcc

theorem storeInv_edit (subs : List Submission) (v content : Nat)
    (h : StoreInv subs) : StoreInv (editSubmission subs v content) := by
  obtain ⟨hnd, hcc⟩ := h
  constructor
  · unfold VersionsNodup editSubmission
    have hmv : (subs.map (fun t =>
        if t.version == v then { t with content := content } else t)).map
          Submission.version = subs.map Submission.version := by
      rw [List.map_map]
      apply List.map_congr_left
      intro t _
      simp only [Function.comp_apply]
      split <;> rfl
    rw [hmv]
    exact hnd
  · rw [confirmedCount_eq_countP] at hcc ⊢
    unfold editSubmission
    rw [List.countP_map]
    have : subs.countP ((fun s => s.confirmed && !s.discarded) ∘ (fun t =>
        if t.version == v then { t with content := content } else t)) =
        subs.countP (fun s => s.confirmed && !s.discarded) := by
      apply List.countP_congr
      intro t _
      by_cases ht : t.version == v <;> simp [Function.comp, ht]
    rw [this]
    exact hcc

theorem storeInv_applyOp (subs : List Submission) (op : BallotOp)
    (h : StoreInv subs) : StoreInv (applyOp subs op) := by
  cases op with
  | create submitter content => exact storeInv_create subs submitter content h
  | confirm v cid => exact storeInv_confirm subs v cid h
  | discard v => exact storeInv_discard subs v h
  | edit v content => exact storeInv_edit subs v content h

theorem storeInv_foldl (ops : List BallotOp) (subs : List Submission)
    (h : StoreInv subs) : StoreInv (ops.foldl applyOp subs) := by
  induction ops generalizing subs with
  | nil => exact h
  | cons op ops ih => exact ih (applyOp subs op) (storeInv_applyOp subs op h)

/-- C1: after any sequence of create, confirm, discard and edit operations on
one debate's submission store, the number of non-discarded submissions with
confirmed = true is 0 or 1.  The confirm operation is the single-winner
confirmation of spec section 4.1 (its write is in BallotSetForm, not under
src/); every other operation can only remove confirmed submissions. -/
theorem claim1_confirmed_at_most_one (ops : List BallotOp) :
    confirmedCount (applyOps ops) = 0 ∨ confirmedCount (applyOps ops) = 1 := by
  have h : StoreInv (applyOps ops) :=
    storeInv_foldl ops [] ⟨List.nodup_nil, by decide⟩
  have h2 := h.2
  omega

/-- C8: when the confirmer is the submission's own submitter, the
self-confirm policy flag is off and the actor is not elevated, confirmation
fails with SelfConfirmationError and the store is returned unchanged; with an
elevated actor or with the policy flag on it performs the confirmation; and a
self-confirmation succeeds only under one of those two overrides. -/
theorem claim8_self_confirmation_guard (subs : List Submission) (v cid : Nat)
    (allowSelfConfirm elevated : Bool) (s : Submission)
    (hfind : subs.find? (fun t => t.version == v) = some s)
    (hself : s.submitter = some cid) :
    (allowSelfConfirm = false → elevated = false →
       confirmSubmissionChecked subs v cid allowSelfConfirm elevated =
         (subs, some ConfirmError.selfConfirmation)) ∧
    (elevated = true →
       confirmSubmissionChecked subs v cid allowSelfConfirm elevated =
         (confirmSubmission subs v cid, none)) ∧
    (allowSelfConfirm = true →
       confirmSubmissionChecked subs v cid allowSelfConfirm elevated =
         (confirmSubmission subs v cid, none)) ∧
    ((confirmSubmissionChecked subs v cid allowSelfConfirm elevated).2 = none →
       allowSelfConfirm = true ∨ elevated = true) := by
  unfold confirmSubmissionChecked
  rw [hfind]
  dsimp only
  have hbeq : (s.submitter == some cid) = true := by
    rw [hself]
    exact beq_self_eq_true (some cid)
  refine ⟨?_, ?_, ?_, ?_⟩
  · intro ha he
    subst ha
    subst he
    rw [if_pos]
    simp [hbeq]
  · intro he
    subst he
    rw [if_neg]
    simp
  · intro ha
    subst ha
    rw [if_neg]
    simp
  · intro hnone
    cases ha : allowSelfConfirm with
    | true => exact Or.inl rfl
    | false =>
      cases he : elevated with
      | true => exact Or.inr rfl
      | false =>
        subst ha
        subst he
        rw [if_pos (by simp [hbeq])] at hnone
        simp at hnone

/-- C8 witness: the guard applied to the concrete store demoSubs, whose only
submission was entered by actor 7: actor 7 confirming it with the policy flag
off and no elevation is rejected with the store unchanged, while an elevated
actor 7 gets the confirmation performed. -/
theorem claim8_witness :
    confirmSubmissionChecked demoSubs 1 7 false false =
      (demoSubs, some ConfirmError.selfConfirmation) ∧
    confirmSubmissionChecked demoSubs 1 7 false true =
      (confirmSubmission demoSubs 1 7, none) := by
  constructor
  · exact (claim8_self_confirmation_guard demoSubs 1 7 false false
      { version := 1, submitter := some 7, confirmed := false,
        discarded := false, confirmer := none, content := 42 }
      (by decide) rfl).1 rfl rfl
  · exact (claim8_self_confirmation_guard demoSubs 1 7 false true
      { version := 1, submitter := some 7, confirmed := false,
        discarded := false, confirmer := none, content := 42 }
      (by decide) rfl).2.1 rfl

/-- C5: ballots_status returns the empty list when the round has no
submissions; otherwise it returns exactly intervals + 1 samples, the i-th
computed at threshold earliest + i * (latest - earliest) / intervals
minutes ago (earliest and latest being the minutes-ago of the first and last
ballot in timestamp order); and when latest equals earliest every sample is
the single stat at that common threshold, repeated — rational division by the
interval count is total, so no division-by-zero fault occurs. -/
theorem claim5_histogram_shape (n : ℕ) (debates : ℤ) (b : Ballot) (rest : List Ballot) :
    ballots_status n [] debates = [] ∧
    (ballots_status n (b :: rest) debates).length = n + 1 ∧
    ballots_status n (b :: rest) debates =
      (List.range (n + 1)).map (fun (i : ℕ) =>
        sampleStat (b :: rest) debates
          (b.minutesAgo +
            (i : ℚ) * ((rest.getLastD b).minutesAgo - b.minutesAgo) / (n : ℚ))) ∧
    ((rest.getLastD b).minutesAgo = b.minutesAgo →
      ∀ s ∈ ballots_status n (b :: rest) debates,
        s = sampleStat (b :: rest) debates b.minutesAgo) := by
  refine ⟨rfl, ?_, ?_, ?_⟩
  · simp only [ballots_status]
    rw [List.length_map, List.length_range]
  · simp only [ballots_status]
    apply List.map_congr_left
    intro i _
    congr 1
    ring
  · intro hflat s hs
    simp only [ballots_status] at hs
    rcases List.mem_map.mp hs with ⟨i, _, rfl⟩
    congr 1
    rw [hflat]
    ring

/-- C5 witness: the shape applied to the concrete one-ballot round: a round
with no ballots gives the empty list; with a single ballot 30 minutes ago the
latest equals the earliest, so all 21 samples equal the single stat at
threshold 30. -/
theorem claim5_witness :
    ballots_status 20 [] 10 = [] ∧
    (ballots_status 20 demoFlatBallots 10).length = 21 ∧
    (ballots_status 20 demoFlatBallots 10).head? =
      some (sampleStat demoFlatBallots 10 30) := by
  have h := claim5_histogram_shape 20 10 { minutesAgo := 30, status := STATUS_CONFIRMED } []
  refine ⟨h.1, h.2.1, ?_⟩
  have hall := h.2.2.2 rfl
  have hlen := h.2.1
  cases hl : ballots_status 20 demoFlatBallots 10 with
  | nil =>
    rw [show demoFlatBallots = [{ minutesAgo := 30, status := STATUS_CONFIRMED }] from rfl]
      at hl
    rw [hl] at hlen
    simp at hlen
  | cons a t =>
    have ha : a = sampleStat demoFlatBallots 10 30 := by
      have : a ∈ ballots_status 20 demoFlatBallots 10 := by
        rw [hl]
        exact List.mem_cons_self a t
      exact hall a this
    simp [hl, ha]

/-- C6 counterexample: in the claimed scenario (10 debates, confirmed
submissions 30, 20 and 10 minutes ago, 20 intervals) the earliest checkpoint
reports confirmedCount = 1 and notYetEntered = 9, not confirmedCount = 3 and
notYetEntered = 7: a submission is counted at a checkpoint only when its
minutes-ago is at least the threshold, and at the 30-minutes-ago checkpoint
the 20- and 10-minute-old submissions do not yet exist. -/
theorem claim6_counterexample :
    (ballots_status 20 demoBallots 10).head? =
      some { minutesAgo := 30, notYetEntered := 9, draftCount := 0, confirmedCount := 1 } ∧
    (ballots_status 20 demoBallots 10).head? ≠
      some { minutesAgo := 30, notYetEntered := 7, draftCount := 0, confirmedCount := 3 } := by
  with_unfolding_all decide

/-- C6 amended: in the scenario the earliest checkpoint (minutesAgo = 30)
reports confirmedCount = 1 and notYetEntered = 9 (only the submission made 30
minutes ago is at or before it), while the latest checkpoint (minutesAgo =
10) reports confirmedCount = 3 and notYetEntered = 7 as claimed. -/
theorem claim6_histogram_scenario :
    (ballots_status 20 demoBallots 10).head? =
      some { minutesAgo := 30, notYetEntered := 9, draftCount := 0, confirmedCount := 1 } ∧
    (ballots_status 20 demoBallots 10).getLast? =
      some { minutesAgo := 10, notYetEntered := 7, draftCount := 0, confirmedCount := 3 } := by
  with_unfolding_all decide

theorem histStep_sum (tp : ℚ) (stat : HistSample) (b : Ballot) :
    (histStep tp stat b).notYetEntered + (histStep tp stat b).draftCount +
      (histStep tp stat b).confirmedCount =
    stat.notYetEntered + stat.draftCount + stat.confirmedCount := by
  unfold histStep
  split
  · split
    · simp only
      ring
    · split
      · simp only
        ring
      · rfl
  · rfl

theorem foldl_histStep_sum (l : List Ballot) (tp : ℚ) (init : HistSample) :
    (l.foldl (histStep tp) init).notYetEntered +
      (l.foldl (histStep tp) init).draftCount +
      (l.foldl (histStep tp) init).confirmedCount =
    init.notYetEntered + init.draftCount + init.confirmedCount := by
  induction l generalizing init with
  | nil => rfl
  | cons a l ih => rw [List.foldl_cons, ih, histStep_sum]

theorem sampleStat_sum (ballots : List Ballot) (debates : ℤ) (tp : ℚ) :
    (sampleStat ballots debates tp).notYetEntered +
      (sampleStat ballots debates tp).draftCount +
      (sampleStat ballots debates tp).confirmedCount = debates := by
  unfold sampleStat
  rw [foldl_histStep_sum]
  simp

/-- C10: in every sample of ballots_status, notYetEntered + draftCount +
confirmedCount equals the round's debate count, because each qualifying
submission moves exactly one unit out of notYetEntered; and since the count
is per submission rather than per debate, notYetEntered can fall below zero
when a debate has several qualifying submissions, as in the concrete
one-debate round with two drafts. -/
theorem claim10_histogram_sum (n : ℕ) (ballots : List Ballot) (debates : ℤ) :
    (∀ s ∈ ballots_status n ballots debates,
        s.notYetEntered + s.draftCount + s.confirmedCount = debates) ∧
    ((ballots_status 20 demoDoubleDraft 1).head? =
        some { minutesAgo := 5, notYetEntered := -1, draftCount := 2,
               confirmedCount := 0 } ∧
      (-1 : ℤ) < 0) := by
  constructor
  · intro s hs
    cases ballots with
    | nil => simp [ballots_status] at hs
    | cons b rest =>
      simp only [ballots_status] at hs
      rcases List.mem_map.mp hs with ⟨i, _, rfl⟩
      exact sampleStat_sum _ _ _
  · exact ⟨by with_unfolding_all decide, by decide⟩

/-- C10 witness: the sum invariant applied to the first sample of the
concrete two-draft scenario, where the sum is 1 even though notYetEntered is
negative. -/
theorem claim10_witness :
    ∃ s, (ballots_status 20 demoDoubleDraft 1).head? = some s ∧
      s.notYetEntered + s.draftCount + s.confirmedCount = 1 := by
  refine ⟨{ minutesAgo := 5, notYetEntered := -1, draftCount := 2,
            confirmedCount := 0 }, by with_unfolding_all decide, ?_⟩
  exact (claim10_histogram_sum 20 demoDoubleDraft 1).1 _ (by with_unfolding_all decide)

theorem venuesMatching_setBallotIn (st : Store) (i : Nat) (v : String) :
    venuesMatching (setBallotIn st i) v = venuesMatching st v := rfl

theorem filter_map_pres {α : Type} (f : α → α) (p : α → Bool)
    (hp : ∀ d, p (f d) = p d) (l : List α) :
    (l.map f).filter p = (l.filter p).map f := by
  induction l with
  | nil => rfl
  | cons a l ih =>
    simp only [List.map_cons, List.filter_cons, hp a]
    cases hpa : p a <;> simp [hpa, ih]

theorem debatesAt_setBallotIn (st : Store) (r : Nat) (venueId i : Nat) :
    debatesAt (setBallotIn st i) r venueId =
      (debatesAt st r venueId).map
        (fun d => if d.id == i then { d with ballot_in := true } else d) := by
  unfold debatesAt setBallotIn
  apply filter_map_pres
  intro d
  split <;> rfl

/-- C4: ballot checkin for a round and venue name: the venue name is resolved
case-insensitively (two names with equal lowercasings behave identically);
when no venue matches it fails with the venue-not-found error; when the venue
is unique but no debate of the round sits at it, with the no-debate error;
when the resolved debate already has ballot_in, with the already-checked-in
error — each failure leaving the store unchanged; and on success it sets the
resolved debate's ballot_in, so an immediately repeated checkin for the same
venue fails with the already-checked-in error. -/
theorem claim4_checkin_protocol (st : Store) (r : Nat) (v v2 : String) :
    (venuesMatching st v = [] →
       post_ballot_checkin st r v =
         (st, CheckinOutcome.failure CheckinError.venueNotFound)) ∧
    (∀ w, venuesMatching st v = [w] → debatesAt st r w.id = [] →
       post_ballot_checkin st r v =
         (st, CheckinOutcome.failure CheckinError.noDebateAtVenue)) ∧
    (∀ w d, venuesMatching st v = [w] → debatesAt st r w.id = [d] →
       d.ballot_in = true →
       post_ballot_checkin st r v =
         (st, CheckinOutcome.failure CheckinError.alreadyCheckedIn)) ∧
    (∀ w d, venuesMatching st v = [w] → debatesAt st r w.id = [d] →
       d.ballot_in = false →
       post_ballot_checkin st r v = (setBallotIn st d.id, CheckinOutcome.success
           { venueId := d.venue, debate_description := d.aff ++ " vs " ++ d.neg,
             ballots_left := ballot_checkin_number_left (setBallotIn st d.id) r }) ∧
       (∀ e ∈ (setBallotIn st d.id).debates, e.id = d.id → e.ballot_in = true) ∧
       (post_ballot_checkin (setBallotIn st d.id) r v).2 =
         CheckinOutcome.failure CheckinError.alreadyCheckedIn) ∧
    (v.toLower = v2.toLower →
       post_ballot_checkin st r v = post_ballot_checkin st r v2) := by
  refine ⟨?_, ?_, ?_, ?_, ?_⟩
  · intro hv
    simp [post_ballot_checkin, get_debate_from_ballot_checkin_request, hv]
  · intro w hv hd
    simp [post_ballot_checkin, get_debate_from_ballot_checkin_request, hv, hd]
  · intro w d hv hd hb
    simp [post_ballot_checkin, get_debate_from_ballot_checkin_request, hv, hd, hb]
  · intro w d hv hd hb
    refine ⟨?_, ?_, ?_⟩
    · simp [post_ballot_checkin, get_debate_from_ballot_checkin_request, hv, hd, hb]
    · intro e he hid
      unfold setBallotIn at he
      rcases List.mem_map.mp he with ⟨x, hx, rfl⟩
      by_cases hc : (x.id == d.id) = true
      · simp only [if_pos hc]
      · simp only [if_neg hc] at hid ⊢
        exact absurd (by simp [hid]) hc
    · have hv2 : venuesMatching (setBallotIn st d.id) v = [w] := by
        rw [venuesMatching_setBallotIn]
        exact hv
      have hd2 : debatesAt (setBallotIn st d.id) r w.id =
          [{ d with ballot_in := true }] := by
        rw [debatesAt_setBallotIn, hd]
        simp
      simp [post_ballot_checkin, get_debate_from_ballot_checkin_request, hv2, hd2]
  · intro hcase
    simp only [post_ballot_checkin, get_debate_from_ballot_checkin_request,
      venuesMatching, hcase]

/-- C4 witness: checking in venue Room 1 of demoStore's round 5 under the
lowercased name succeeds, sets ballot_in, and an immediate second checkin of
the same venue fails with the already-checked-in error. -/
theorem claim4_witness :
    post_ballot_checkin demoStore 5 "room 1" =
      (setBallotIn demoStore 1, CheckinOutcome.success
        { venueId := some 1, debate_description := "A" ++ " vs " ++ "B",
          ballots_left := ballot_checkin_number_left (setBallotIn demoStore 1) 5 }) ∧
    (post_ballot_checkin (setBallotIn demoStore 1) 5 "room 1").2 =
      CheckinOutcome.failure CheckinError.alreadyCheckedIn := by
  have h := (claim4_checkin_protocol demoStore 5 "room 1" "room 1").2.2.2.1
    { id := 1, name := "Room 1" }
    { id := 1, round := 5, venue := some 1, ballot_in := false, aff := "A", neg := "B" }
    (by with_unfolding_all decide) (by with_unfolding_all decide) rfl
  exact ⟨h.1, h.2.2⟩

/-- C9: a failing checkin (venue not found, no debate at the venue, already
checked in, or even an uncaught multiple-match crash) leaves the store
exactly as it was; a successful checkin replaces the store by setBallotIn of
the resolved debate, and setBallotIn touches no venue, keeps the debate list
length, leaves every debate with a different id untouched, and rewrites a
debate with the matching id only in its ballot_in field. -/
theorem claim9_checkin_frame (st : Store) (r : Nat) (v : String) :
    (∀ e, (post_ballot_checkin st r v).2 = CheckinOutcome.failure e →
        (post_ballot_checkin st r v).1 = st) ∧
    ((post_ballot_checkin st r v).2 = CheckinOutcome.uncaught →
        (post_ballot_checkin st r v).1 = st) ∧
    (∀ s, (post_ballot_checkin st r v).2 = CheckinOutcome.success s →
        ∃ d, get_debate_from_ballot_checkin_request st r v = CheckinLookup.ok d ∧
          (post_ballot_checkin st r v).1 = setBallotIn st d.id) ∧
    (∀ i, (setBallotIn st i).venues = st.venues) ∧
    (∀ i, (setBallotIn st i).debates.length = st.debates.length) ∧
    (∀ i j d, st.debates.get? j = some d →
        (d.id ≠ i → (setBallotIn st i).debates.get? j = some d) ∧
        (d.id = i → (setBallotIn st i).debates.get? j =
            some { d with ballot_in := true })) := by
  refine ⟨?_, ?_, ?_, fun i => rfl, ?_, ?_⟩
  · intro e he
    unfold post_ballot_checkin at he ⊢
    cases hk : get_debate_from_ballot_checkin_request st r v with
    | err e2 => rfl
    | uncaught => rfl
    | ok d => rw [hk] at he; simp at he
  · intro he
    unfold post_ballot_checkin at he ⊢
    cases hk : get_debate_from_ballot_checkin_request st r v with
    | err e2 => rfl
    | uncaught => rfl
    | ok d => rw [hk] at he; simp at he
  · intro s hs
    unfold post_ballot_checkin at hs ⊢
    cases hk : get_debate_from_ballot_checkin_request st r v with
    | err e => rw [hk] at hs; simp at hs
    | uncaught => rw [hk] at hs; simp at hs
    | ok d => exact ⟨d, rfl, rfl⟩
  · intro i
    simp [setBallotIn]
  · intro i j d hj
    unfold setBallotIn
    constructor
    · intro hne
      simp only [List.get?_map, hj]
      simp [hne]
    · intro heq
      simp only [List.get?_map, hj]
      simp [heq]

/-- C9 witness: the frame conditions applied to demoStore: a checkin with an
unknown venue name leaves the store untouched, and setBallotIn of debate 1
keeps the venue list and rewrites row 0 only in its ballot_in field. -/
theorem claim9_witness :
    (post_ballot_checkin demoStore 5 "library").1 = demoStore ∧
    (setBallotIn demoStore 1).venues = demoStore.venues ∧
    (setBallotIn demoStore 1).debates.get? 0 =
      some { id := 1, round := 5, venue := some 1, ballot_in := true,
             aff := "A", neg := "B" } := by
  have h := claim9_checkin_frame demoStore 5 "library"
  refine ⟨h.1 CheckinError.venueNotFound (by with_unfolding_all decide),
          h.2.2.2.1 1, ?_⟩
  exact ((h.2.2.2.2.2 1 0
    { id := 1, round := 5, venue := some 1, ballot_in := false, aff := "A", neg := "B" }
    (by decide)).2 rfl)

end Tabbycat
